import Mathlib

/-!
Shallow embedding of the marblecutter core (`marblecutter/__init__.py` and
`marblecutter/transformations/image.py`) together with theorems settling the
specification claims about it.

Conventions of the embedding:
* Python floats are modelled as rationals (`ℚ`); float division by a nonzero
  denominator is exact division.
* numpy arrays are modelled as nested lists; `a[i:j]` slicing is modelled by
  `pySlice`, which reproduces Python's clamping and negative-stop semantics.
* Exceptions are modelled as `Option`/`Except` results.
-/

/-- Modelled from the spec (§3) and its use in the source: `Bounds` from
`marblecutter.utils` (the file itself is not under `src/`) is a pair of a
`(west, south, east, north)` rectangle and a CRS identifier, which the source
destructures as `(bounds, data_crs)`. -/
structure Bounds where
  bounds : ℚ × ℚ × ℚ × ℚ
  crs : String
deriving DecidableEq

/-- Modelled from the spec (§3) and its use in the source: `PixelCollection`
from `marblecutter.utils` pairs a pixel buffer with its `Bounds`; the source
destructures it as `data, (bounds, data_crs), _, _` and rebuilds it with
`PixelCollection(data, Bounds(...))`.  The buffer is a three-axis array
(band-major `bands × rows × cols`, or pixel-interleaved `rows × cols × bands`),
modelled as nested lists of rationals. -/
structure PixelCollection where
  data : List (List (List ℚ))
  bounds : Bounds
deriving DecidableEq

/-- Affine transform `| a b c |  | d e f |` as produced by
`rasterio.transform.from_bounds` / `Affine(...)` (third row is `0 0 1`). -/
structure AffineQ where
  a : ℚ
  b : ℚ
  c : ℚ
  d : ℚ
  e : ℚ
  f : ℚ
deriving DecidableEq

/-- `rasterio.transform.from_bounds(west, south, east, north, width, height)`:
north-up affine with pixel size `(east-west)/width` by `(south-north)/height`,
anchored at the top-left corner. -/
def from_bounds (b : ℚ × ℚ × ℚ × ℚ) (width height : Nat) : AffineQ :=
  let (w, s, e, n) := b
  ⟨(e - w) / (width : ℚ), 0, w, 0, (s - n) / (height : ℚ), n⟩

/-- `rasterio.windows.bounds(Window(col_off, row_off, width, height), t)`:
spatial `(left, bottom, right, top)` of the pixel window under transform `t`
(for a north-up transform, `b = d = 0`). -/
def window_bounds (colOff rowOff width height : Nat) (t : AffineQ) : ℚ × ℚ × ℚ × ℚ :=
  (t.c + (colOff : ℚ) * t.a,
   t.f + ((rowOff : ℚ) + (height : ℚ)) * t.e,
   t.c + ((colOff : ℚ) + (width : ℚ)) * t.a,
   t.f + (rowOff : ℚ) * t.e)

/-- Normalised stop index of the Python slice `xs[i:j]` (a negative `j` counts
from the end; the result is clamped to `[0, len]` by `take`). -/
def pySliceStop (len : Nat) (j : Int) : Nat :=
  if j < 0 then ((len : Int) + j).toNat else j.toNat

/-- Python slice `xs[i:j]` with a nonnegative start `i` and an arbitrary
integer stop `j`. -/
def pySlice {α : Type} (xs : List α) (i : Nat) (j : Int) : List α :=
  (xs.take (pySliceStop xs.length j)).drop i

/-- Python's `str.upper` for ASCII strings, written over the character list so
that it evaluates by kernel reduction. -/
def pyUpper (s : String) : String :=
  String.mk (s.data.map Char.toUpper)

/-- `_isimage(data_format)` from `marblecutter/__init__.py`: the format tag
denotes the pixel-interleaved image layout. -/
def _isimage (data_format : String) : Bool :=
  pyUpper data_format == "RGB" || pyUpper data_format == "RGBA"

/-- `crop(pixel_collection, data_format, offsets)` from
`marblecutter/__init__.py` (lines 85-108), embedded verbatim:

* image layout: `width, height, _ = data.shape` (note: for a
  `rows × cols × bands` array this binds `width` to the row count and `height`
  to the column count, exactly as the source does), then
  `data[top:height - bottom, left:width - right, :]`;
* band-major layout: `_, height, width = data.shape`, then
  `data[:, top:height - bottom, left:width - right]`;
* both branches recompute bounds as
  `windows.bounds(windows.Window(left, top, width, height), t)` with the
  original `width`/`height` (not the retained window's dimensions). -/
def crop (pixel_collection : PixelCollection) (data_format : String)
    (offsets : Nat × Nat × Nat × Nat) : PixelCollection :=
  let (left, bottom, right, top) := offsets
  let b := pixel_collection.bounds
  if _isimage data_format then
    let width := pixel_collection.data.length
    let height := (pixel_collection.data.head?.map List.length).getD 0
    let t := from_bounds b.bounds width height
    let data := (pySlice pixel_collection.data top ((height : Int) - (bottom : Int))).map
      (fun row => pySlice row left ((width : Int) - (right : Int)))
    ⟨data, ⟨window_bounds left top width height t, b.crs⟩⟩
  else
    let height := (pixel_collection.data.head?.map List.length).getD 0
    let width := ((pixel_collection.data.head?.bind List.head?).map List.length).getD 0
    let t := from_bounds b.bounds width height
    let data := pixel_collection.data.map (fun band =>
      (pySlice band top ((height : Int) - (bottom : Int))).map
        (fun row => pySlice row left ((width : Int) - (right : Int))))
    ⟨data, ⟨window_bounds left top width height t, b.crs⟩⟩

/-- Concrete band-major input for the crop evaluation: one band, 4 rows by
4 columns, value `4*r + c` at row `r`, column `c`, with bounds `(0,0,4,4)`. -/
def cropInputC2 : PixelCollection :=
  ⟨[[[0, 1, 2, 3], [4, 5, 6, 7], [8, 9, 10, 11], [12, 13, 14, 15]]],
   ⟨(0, 0, 4, 4), "EPSG:3857"⟩⟩

/-- Concrete pixel-interleaved (image-layout) input: 2 rows, 3 columns,
1 band, with bounds `(0,0,3,2)`. -/
def cropInputC7 : PixelCollection :=
  ⟨[[[1], [2], [3]], [[4], [5], [6]]], ⟨(0, 0, 3, 2), "EPSG:3857"⟩⟩

/-- Claim C2: FALSE on the code.  Cropping 1 pixel from the left edge of a
band-major 4×4 buffer with bounds `(0,0,4,4)` (pixel size 1) removes exactly
one column from the data, but the recomputed bounds are `(1, 0, 5, 4)`: the
west edge moves inward as claimed, yet the east edge moves outward from 4 to 5
instead of staying fixed, because the source builds the window with the
original `width`/`height` instead of the retained dimensions. -/
theorem crop_left_margin_bounds_eval :
    (crop cropInputC2 "raw" (1, 0, 0, 0)).data =
      [[[1, 2, 3], [5, 6, 7], [9, 10, 11], [13, 14, 15]]] ∧
    (crop cropInputC2 "raw" (1, 0, 0, 0)).bounds.bounds = (1, 0, 5, 4) ∧
    ((1 : ℚ), (0 : ℚ), (5 : ℚ), (4 : ℚ)) ≠ ((1 : ℚ), (0 : ℚ), (4 : ℚ), (4 : ℚ)) := by
  refine ⟨rfl, ?_, by norm_num⟩
  have h : (crop cropInputC2 "raw" (1, 0, 0, 0)).bounds.bounds
      = window_bounds 1 0 4 4 (from_bounds (0, 0, 4, 4) 4 4) := rfl
  rw [h]
  norm_num [window_bounds, from_bounds]

/-- Claim C7: FALSE on the code.  With all four offsets zero, cropping a
non-square image-layout buffer (2 rows × 3 columns × 1 band) is not an
identity: the source reads `width, height, _ = data.shape`, swapping the row
and column counts, so the column slice `left:width - right` becomes `0:2` and
drops the third column.  The bounds are returned unchanged. -/
theorem crop_zero_offsets_image_eval :
    (crop cropInputC7 "RGB" (0, 0, 0, 0)).data = [[[1], [2]], [[4], [5]]] ∧
    (crop cropInputC7 "RGB" (0, 0, 0, 0)).data ≠ cropInputC7.data ∧
    (crop cropInputC7 "RGB" (0, 0, 0, 0)).bounds.bounds = (0, 0, 3, 2) := by
  refine ⟨rfl, by decide, ?_⟩
  have h : (crop cropInputC7 "RGB" (0, 0, 0, 0)).bounds.bounds
      = window_bounds 0 0 2 3 (from_bounds (0, 0, 3, 2) 2 3) := rfl
  rw [h]
  norm_num [window_bounds, from_bounds]

/-- `EARTH_RADIUS = 6378137` from `marblecutter/__init__.py`. -/
def EARTH_RADIUS : ℚ := 6378137

/-- `math.degrees(x) = x * 180 / pi`.  The float constant `math.pi` is
abstracted as the parameter `piV`. -/
def degreesQ (piV x : ℚ) : ℚ :=
  x * 180 / piV

/-- `EXTENTS` from `marblecutter/__init__.py` (lines 30-43): the World Extent
Table, keyed by the stringified CRS (`str(CRS.from_epsg(3857))` is
`"EPSG:3857"`, `str(CRS.from_epsg(4326))` is `"EPSG:4326"`).  The float
constant `math.pi` is abstracted as the parameter `piV`. -/
def EXTENTS (piV : ℚ) : List (String × (ℚ × ℚ × ℚ × ℚ)) :=
  [("EPSG:3857",
     (-piV * EARTH_RADIUS, -piV * EARTH_RADIUS, piV * EARTH_RADIUS, piV * EARTH_RADIUS)),
   ("EPSG:4326",
     (degreesQ piV (-piV), degreesQ piV (-(piV / 2)), degreesQ piV piV, degreesQ piV (piV / 2)))]

/-- `get_extent(crs)` from `marblecutter/__init__.py` (lines 111-112):
`EXTENTS[str(crs)]`.  A missing key raises `KeyError` (the spec's
`UnsupportedCRS`), modelled as `none`. -/
def get_extent (piV : ℚ) (crs : String) : Option (ℚ × ℚ × ℚ × ℚ) :=
  (EXTENTS piV).lookup crs

/-- Claim C8: a CRS identifier absent from the World Extent Table fails the
lookup (the `KeyError` that the spec names `UnsupportedCRS`), while the two
CRSes present in the table return their full-world bounds: the web Mercator
square `±π·6378137` and, for the geographic CRS, exactly
`(-180, -90, 180, 90)` (for any nonzero value of the π constant). -/
theorem get_extent_lookup (piV : ℚ) (hpi : piV ≠ 0) (crs : String)
    (h1 : crs ≠ "EPSG:3857") (h2 : crs ≠ "EPSG:4326") :
    get_extent piV crs = none ∧
    get_extent piV "EPSG:3857" =
      some (-piV * EARTH_RADIUS, -piV * EARTH_RADIUS,
            piV * EARTH_RADIUS, piV * EARTH_RADIUS) ∧
    get_extent piV "EPSG:4326" = some (-180, -90, 180, 90) := by
  have e1 : degreesQ piV (-piV) = -180 := by
    unfold degreesQ; field_simp; try ring
  have e2 : degreesQ piV (-(piV / 2)) = -90 := by
    unfold degreesQ; field_simp; try ring
  have e3 : degreesQ piV piV = 180 := by
    unfold degreesQ; field_simp; try ring
  have e4 : degreesQ piV (piV / 2) = 90 := by
    unfold degreesQ; field_simp; try ring
  refine ⟨?_, ?_, ?_⟩
  · simp only [get_extent, EXTENTS, List.lookup]
    rw [beq_eq_false_iff_ne.mpr h1, beq_eq_false_iff_ne.mpr h2]
  · simp [get_extent, EXTENTS, List.lookup]
  · simp [get_extent, EXTENTS, List.lookup, e1, e2, e3, e4]

/-- Witness for `get_extent_lookup` at `piV = 355/113` and the unsupported
CRS `"EPSG:32633"`. -/
theorem get_extent_lookup_witness :
    ((355 / 113 : ℚ) ≠ 0 ∧ "EPSG:32633" ≠ "EPSG:3857" ∧ "EPSG:32633" ≠ "EPSG:4326") ∧
    (get_extent (355 / 113) "EPSG:32633" = none ∧
     get_extent (355 / 113) "EPSG:3857" =
       some (-(355 / 113) * EARTH_RADIUS, -(355 / 113) * EARTH_RADIUS,
             (355 / 113) * EARTH_RADIUS, (355 / 113) * EARTH_RADIUS) ∧
     get_extent (355 / 113) "EPSG:4326" = some (-180, -90, 180, 90)) :=
  ⟨⟨by norm_num, by decide, by decide⟩,
   get_extent_lookup (355 / 113) (by norm_num) "EPSG:32633" (by decide) (by decide)⟩

/-- Pixel data types occurring in the embedding (`src.meta["dtype"]`). -/
inductive DType
  | uint8
  | uint16
  | int16
  | float32
deriving DecidableEq

/-- `np.issubdtype(dtype, np.floating)`. -/
def isFloating : DType → Bool
  | .float32 => true
  | _ => false

/-- `np.finfo(np.float32).min`, the exact value of the most negative finite
float32: `-(2^128 - 2^104) = -(2^104 * (2^24 - 1))`. -/
def finfo_float32_min : ℚ :=
  -(2 ^ 104 * 16777215)

/-- `_nodata(dtype)` from `marblecutter/__init__.py` (lines 78-82): the
minimum representable value of the dtype (`np.finfo(dtype).min` for floating
types, `np.iinfo(dtype).min` for integer types). -/
def _nodata (dtype : DType) : ℚ :=
  match dtype with
  | .float32 => finfo_float32_min
  | .uint8 => 0
  | .uint16 => 0
  | .int16 => -32768

/-- Python's `x or y` applied at `nodata = src.nodata or _nodata(...)`
(line 260): `None` and `0.0` are both falsy, so a declared nodata of zero is
replaced by the synthetic value exactly like an absent declaration. -/
def pyOrNodata (declared : Option ℚ) (synthetic : ℚ) : ℚ :=
  match declared with
  | none => synthetic
  | some v => if v = 0 then synthetic else v

/-- Recipe options recognised by `read_window` (spec §3); unrecognised keys
are ignored, so only the recognised ones are modelled. -/
structure Recipes where
  dem : Bool
  resample : Option String
  nodata : Option ℚ
deriving DecidableEq

/-- Recipe with no options set (`recipes = {}`). -/
def emptyRecipes : Recipes :=
  ⟨false, none, none⟩

/-- Source descriptor metadata consumed by `read_window`: declared nodata,
dtype, aggregated mask-flag queries (`MaskFlags.per_dataset in flags`,
`MaskFlags.alpha in flags`) and color-role queries on `colorinterp`. -/
structure SrcMeta where
  nodata : Option ℚ
  dtype : DType
  perDatasetMask : Bool
  alphaMaskFlag : Bool
  hasAlphaBand : Bool
  hasPalette : Bool
deriving DecidableEq

/-- Nodata resolution of `read_window` (lines 260-263):
`nodata = src.nodata or _nodata(src.meta["dtype"])`, then an outright
override by the Recipe's `nodata` option. -/
def resolve_nodata (recipes : Recipes) (src : SrcMeta) : ℚ :=
  let nodata := pyOrNodata src.nodata (_nodata src.dtype)
  match recipes.nodata with
  | some v => v
  | none => nodata

/-- Mask-source preference of `read_window` (lines 268-274): a per-dataset
mask is preferred iff it exists and no alpha mask flag is set. -/
def mask_preference (src : SrcMeta) : Bool :=
  src.perDatasetMask && !src.alphaMaskFlag

/-- `_mask(data, nodata)` from `marblecutter/__init__.py` (lines 71-75) at a
single pixel: `np.ma.masked_values` (float-tolerant closeness, default
`atol = 1e-8`, `rtol = 1e-5`) for floating dtypes, `np.ma.masked_equal`
(exact equality) otherwise. -/
def _mask_pixel (dtype : DType) (nodata x : ℚ) : Bool :=
  if isFloating dtype then
    decide (|x - nodata| ≤ 1 / 100000000 + |nodata| / 100000)
  else
    decide (x = nodata)

/-- Masking behaviour of `read_window` (lines 260-311) on a single-band read,
embedded over the pixel values `vals` (and the synthesised or native alpha
band `alphaVals` when one is present):

* `src_nodata` is set to `None` and alpha synthesis requested when the
  per-dataset mask is preferred;
* if the reprojected view carries an alpha band, the mask of every other band
  is `~alpha` (nonzero = masked, so a pixel is valid iff its alpha is 255);
* otherwise pixels are masked against `vrt.nodata` via `_mask`;
* otherwise (no nodata at all) the buffer is returned unmasked. -/
def read_window_masking (recipes : Recipes) (src : SrcMeta)
    (vals alphaVals : List ℚ) : List (ℚ × Bool) :=
  let nodata := resolve_nodata recipes src
  let pref := mask_preference src
  let src_nodata : Option ℚ := if pref then none else some nodata
  let add_alpha := pref
  let vrt_has_alpha := add_alpha || src.hasAlphaBand
  let vrt_nodata := src_nodata
  if vrt_has_alpha then
    vals.zip (alphaVals.map fun a => decide (255 - a ≠ 0))
  else if vrt_nodata.isSome then
    vals.map fun x => (x, _mask_pixel src.dtype (vrt_nodata.getD 0) x)
  else
    vals.map fun x => (x, false)

/-- Source with a declared nodata value of 0, dtype int16, and no mask or
alpha preference. -/
def srcZeroNodata : SrcMeta :=
  ⟨some 0, .int16, false, false, false, false⟩

/-- Claim C1: FALSE on the code.  For a source with dtype int16 and a
declared nodata value of 0 (and no alpha/mask preference), the resolved
nodata value is the synthetic extreme `-32768`, not the declared 0: Python's
`src.nodata or _nodata(...)` treats the declared 0 as falsy.  Consequently an
output pixel equal to the declared nodata value 0 is NOT masked (the claim
says it must be masked invalid), while a pixel equal to `-32768` is masked. -/
theorem read_window_nodata_zero_cx :
    srcZeroNodata.nodata = some 0 ∧
    resolve_nodata emptyRecipes srcZeroNodata = -32768 ∧
    read_window_masking emptyRecipes srcZeroNodata [0, -32768] [] =
      [(0, false), (-32768, true)] := by
  refine ⟨rfl, ?_, ?_⟩
  · simp [resolve_nodata, emptyRecipes, srcZeroNodata, pyOrNodata, _nodata]
  · simp only [read_window_masking, resolve_nodata, mask_preference, emptyRecipes,
      srcZeroNodata, pyOrNodata, _nodata, _mask_pixel, isFloating]
    norm_num

/-- Claim C1, amended: the nodata value used for masking starts from the
source's declared nodata value except that a declared value of zero is
treated like an absent declaration (Python falsiness) and replaced by the
synthetic extreme; for a source with a declared nonzero nodata value and no
alpha/mask preference the resolved value is exactly the declared one, each
output pixel is masked by `_mask` against it, and for integer dtypes that
mask is exact equality with the declared value (floating dtypes use
numpy's closeness test). -/
theorem read_window_nodata_amended (src : SrcMeta) (v : ℚ) (vals : List ℚ)
    (h1 : src.nodata = some v) (h2 : v ≠ 0)
    (h3 : src.perDatasetMask = false) (h4 : src.hasAlphaBand = false) :
    resolve_nodata emptyRecipes src = v ∧
    read_window_masking emptyRecipes src vals [] =
      vals.map (fun x => (x, _mask_pixel src.dtype v x)) ∧
    (isFloating src.dtype = false → ∀ x : ℚ, _mask_pixel src.dtype v x = decide (x = v)) := by
  have hres : resolve_nodata emptyRecipes src = v := by
    simp [resolve_nodata, emptyRecipes, pyOrNodata, h1, h2]
  refine ⟨hres, ?_, ?_⟩
  · simp [read_window_masking, mask_preference, hres, h3, h4]
  · intro hint x
    simp [_mask_pixel, hint]

/-- Witness for `read_window_nodata_amended`: a source with dtype int16 and
declared nodata 7; the pixel list `[7, 8]` gets exactly the pixel equal to 7
masked. -/
theorem read_window_nodata_amended_witness :
    ((⟨some 7, .int16, false, false, false, false⟩ : SrcMeta).nodata = some 7 ∧
     (7 : ℚ) ≠ 0) ∧
    (resolve_nodata emptyRecipes ⟨some 7, .int16, false, false, false, false⟩ = 7 ∧
     read_window_masking emptyRecipes ⟨some 7, .int16, false, false, false, false⟩ [7, 8] [] =
       [7, 8].map (fun x => (x, _mask_pixel DType.int16 7 x)) ∧
     (isFloating DType.int16 = false →
       ∀ x : ℚ, _mask_pixel DType.int16 7 x = decide (x = 7))) :=
  ⟨⟨rfl, by norm_num⟩,
   read_window_nodata_amended ⟨some 7, .int16, false, false, false, false⟩ 7 [7, 8]
     rfl (by norm_num) rfl rfl⟩

/-- Masked numpy buffer entering `Image.transform`: band-major values, a
same-shaped boolean mask (`nomask` is the all-`false`/empty mask), and the
numpy dtype of the buffer. -/
structure MaskedArray where
  data : List (List (List ℚ))
  mask : List (List (List Bool))
  dtype : DType
deriving DecidableEq

/-- Pixel collection consumed by `Image.transform`. -/
structure ImagePC where
  pixels : MaskedArray
  bounds : Bounds
deriving DecidableEq

/-- Truncation toward zero of a rational, as C float-to-int conversion does. -/
def ratTrunc (q : ℚ) : ℤ :=
  if q < 0 then ⌈q⌉ else ⌊q⌋

/-- numpy `astype(np.uint8)` on a single value: C-style truncation toward
zero followed by wrap-around modulo 256. -/
def astype_uint8 (q : ℚ) : ℚ :=
  ((ratTrunc q).emod 256 : ℤ)

/-- Elementwise map over a band-major three-axis array. -/
def map3 (f : ℚ → ℚ) (d : List (List (List ℚ))) : List (List (List ℚ)) :=
  d.map (List.map (List.map f))

/-- Row and column counts (`shape[1]`, `shape[2]`) of a band-major array. -/
def shapeRC (d : List (List (List ℚ))) : Nat × Nat :=
  ((d.head?.map List.length).getD 0, ((d.head?.bind List.head?).map List.length).getD 0)

/-- `np.ma.transpose(d, [1, 2, 0])`: index permutation turning a
`bands × rows × cols` array into `rows × cols × bands`. -/
def transposeBands (d : List (List (List ℚ))) : List (List (List ℚ)) :=
  (List.range (shapeRC d).1).map fun r =>
    (List.range (shapeRC d).2).map fun c =>
      d.map fun band => (band.getD r []).getD c 0

/-- `mask.any()` over a three-axis boolean mask. -/
def npAny3 (m : List (List (List Bool))) : Bool :=
  m.any fun band => band.any fun row => row.any id

/-- One entry of `np.logical_and.reduce(~mask)`: pixel `(r, c)` is valid in
every band. -/
def allValidAt (m : List (List (List Bool))) (r c : Nat) : Bool :=
  m.all fun band => !((band.getD r []).getD c false)

/-- In-place `data *= np.iinfo(np.uint8).max` on a masked array
(`image.py` line 21): masked positions are multiplied by 1 (numpy's
`MaskedArray.__imul__` substitutes 1 under the mask), all others by 255. -/
def scale255Masked (data : List (List (List ℚ))) (mask : List (List (List Bool))) :
    List (List (List ℚ)) :=
  (List.range data.length).map fun b =>
    let band := data.getD b []
    (List.range band.length).map fun r =>
      let row := band.getD r []
      (List.range row.length).map fun c =>
        if ((mask.getD b []).getD r []).getD c false then row.getD c 0
        else row.getD c 0 * 255

/-- Alpha plane synthesised by `Image.transform` for a 3-band input
(`image.py` lines 28-31): if any pixel is masked,
`np.logical_and.reduce(~data.mask).astype(np.uint8) * 255` (255 where all
bands are valid, 0 elsewhere); otherwise `np.full(rgb.shape[:-1], 255)`. -/
def alphaPlane (mask : List (List (List Bool))) (R C : Nat) : List (List ℚ) :=
  if npAny3 mask then
    (List.range R).map fun r =>
      (List.range C).map fun c =>
        if allValidAt mask r c then 255 else 0
  else
    (List.range R).map fun _ => (List.range C).map fun _ => 255

/-- `np.dstack((rgb, a))` for an `R × C × 3` pixel-interleaved buffer and an
`R × C` alpha plane: appends the alpha value to each pixel's band list. -/
def dstackAlpha (rgb : List (List (List ℚ))) (a : List (List ℚ)) (R C : Nat) :
    List (List (List ℚ)) :=
  (List.range R).map fun r =>
    (List.range C).map fun c =>
      ((rgb.getD r []).getD c []) ++ [(a.getD r []).getD c 0]

/-- Result of `Image.transform`, together with the state of the caller's
buffer after the call (the source mutates it in place for float32 input). -/
structure ImageOutcome where
  inputAfter : MaskedArray
  result : Option (List (List (List ℚ)) × Bounds × String)
deriving DecidableEq

namespace Image

/-- `Image.transform(pixels)` from
`marblecutter/transformations/image.py`, embedded verbatim:

* `(count, _, _) = data.shape`; the guard `if 3 > count > 4` (chained
  comparison: `3 > count and count > 4`) is unsatisfiable, so the
  `raise Exception("Source data must be 3 or 4 bands")` branch is dead —
  it is kept here as the `none` result;
* for float32 input, `data *= 255` scales the caller's buffer in place;
* `count == 4`: return the transposed `astype(uint8)` buffer and `"RGBA"`;
* otherwise: transpose, synthesise the alpha band from the mask
  (255 where all bands are valid, 0 elsewhere; a constant 255 plane when
  `mask.any()` is false), `np.dstack` it onto the pixels, return `"RGBA"`. -/
def transform (pc : ImagePC) : ImageOutcome :=
  let data := pc.pixels
  let count := data.data.length
  if 3 > count ∧ count > 4 then ⟨data, none⟩
  else
    let data := if data.dtype = DType.float32 then
        { data with data := scale255Masked data.data data.mask }
      else data
    if count = 4 then
      ⟨data, some (transposeBands (map3 astype_uint8 data.data), pc.bounds, "RGBA")⟩
    else
      let rgb := transposeBands (map3 astype_uint8 data.data)
      let R := (shapeRC data.data).1
      let C := (shapeRC data.data).2
      ⟨data, some (dstackAlpha rgb (alphaPlane data.mask R C) R C, pc.bounds, "RGBA")⟩

end Image

/-- One-band uint8 input (band count 1 is unsupported per the spec). -/
def imgOneBand : ImagePC :=
  ⟨⟨[[[7]]], [[[false]]], .uint8⟩, ⟨(0, 0, 1, 1), "EPSG:3857"⟩⟩

/-- Claim C3: FALSE on the code.  The band-count guard is the chained
comparison `3 > count > 4`, i.e. `3 > count and count > 4`, which no band
count satisfies, so the configuration error is never raised: on a 1-band
buffer `Image.transform` returns a 2-channel `"RGBA"` result instead of
failing. -/
theorem image_transform_one_band_eval :
    (Image.transform imgOneBand).result =
      some ([[[7, 255]]], ⟨(0, 0, 1, 1), "EPSG:3857"⟩, "RGBA") ∧
    ∀ count : Nat, ¬(3 > count ∧ count > 4) := by
  constructor
  · decide
  · intro count
    omega

/-- One-band float32 input with value 1 and nothing masked. -/
def imgFloat : ImagePC :=
  ⟨⟨[[[1]]], [[[false]]], .float32⟩, ⟨(0, 0, 1, 1), "EPSG:3857"⟩⟩

/-- Claim C9: FALSE on the code.  For float32 input the transformation runs
`data *= np.iinfo(np.uint8).max` on the caller's buffer before converting, so
the input PixelCollection's buffer is mutated in place: after the call the
input buffer holds 255 where it held 1. -/
theorem image_transform_mutates_float32_cx :
    (Image.transform imgFloat).inputAfter.data = [[[255]]] ∧
    (Image.transform imgFloat).inputAfter.data ≠ imgFloat.pixels.data := by
  have h : (Image.transform imgFloat).inputAfter.data
      = scale255Masked [[[1]]] [[[false]]] := rfl
  have h2 : scale255Masked [[[1]]] [[[false]]] = [[[255]]] := by
    have e : scale255Masked [[[1]]] [[[false]]] = [[[(1 : ℚ) * 255]]] := rfl
    rw [e]
    norm_num
  refine ⟨h.trans h2, ?_⟩
  rw [h, h2]
  simp [imgFloat]

/-- Claim C9, amended: `Image.transform` returns a newly produced buffer and
leaves the input buffer unchanged for every non-float32 input; for float32
input it scales the caller's buffer in place by 255 (masked positions
excepted) before converting, so the stage does mutate a buffer it did not
create in exactly that case. -/
theorem image_transform_input_buffer (pc : ImagePC) :
    (pc.pixels.dtype ≠ DType.float32 → (Image.transform pc).inputAfter = pc.pixels) ∧
    (pc.pixels.dtype = DType.float32 →
      (Image.transform pc).inputAfter =
        { pc.pixels with data := scale255Masked pc.pixels.data pc.pixels.mask }) := by
  have hguard : ¬(3 > pc.pixels.data.length ∧ pc.pixels.data.length > 4) := by omega
  constructor
  · intro hd
    by_cases hc : pc.pixels.data.length = 4 <;>
      simp [Image.transform, hguard, hd, hc]
  · intro hd
    by_cases hc : pc.pixels.data.length = 4 <;>
      simp [Image.transform, hguard, hd, hc]

/-- Witness for `image_transform_input_buffer`: the uint8 input is left
untouched; the float32 input is scaled in place. -/
theorem image_transform_input_buffer_witness :
    (imgOneBand.pixels.dtype ≠ DType.float32 ∧
     (Image.transform imgOneBand).inputAfter = imgOneBand.pixels) ∧
    (imgFloat.pixels.dtype = DType.float32 ∧
     (Image.transform imgFloat).inputAfter =
       { imgFloat.pixels with
         data := scale255Masked imgFloat.pixels.data imgFloat.pixels.mask }) :=
  ⟨⟨by decide, (image_transform_input_buffer imgOneBand).1 (by decide)⟩,
   ⟨rfl, (image_transform_input_buffer imgFloat).2 rfl⟩⟩

/-- Indexing a map over `List.range` by `getD` within bounds evaluates the
mapped function. -/
theorem getD_range_map {α : Type} (f : Nat → α) {R r : Nat} (h : r < R) (d : α) :
    ((List.range R).map f).getD r d = f r := by
  simp [List.getD, List.getElem?_map, List.getElem?_range, h]

/-- Head of a map over a nonempty range. -/
theorem head?_range_map {α : Type} (f : Nat → α) (n : Nat) :
    ((List.range (n + 1)).map f).head? = some (f 0) := by
  rw [List.range_succ_eq_map]
  rfl

/-- Head of a nonempty range. -/
theorem head?_range_succ (n : Nat) : (List.range (n + 1)).head? = some 0 := by
  rw [List.range_succ_eq_map]
  rfl

/-- `map3` preserves the band count. -/
theorem length_map3 (f : ℚ → ℚ) (d : List (List (List ℚ))) :
    (map3 f d).length = d.length := by
  simp [map3]

/-- `map3` preserves the row/column shape. -/
theorem shapeRC_map3 (f : ℚ → ℚ) (d : List (List (List ℚ))) :
    shapeRC (map3 f d) = shapeRC d := by
  cases d with
  | nil => rfl
  | cons band rest =>
    cases band with
    | nil => rfl
    | cons row rest2 => simp [shapeRC, map3]

/-- In-place scaling preserves the band count. -/
theorem length_scale255 (d : List (List (List ℚ))) (m : List (List (List Bool))) :
    (scale255Masked d m).length = d.length := by
  simp [scale255Masked]

/-- In-place scaling preserves the row/column shape. -/
theorem shapeRC_scale255 (d : List (List (List ℚ))) (m : List (List (List Bool))) :
    shapeRC (scale255Masked d m) = shapeRC d := by
  cases d with
  | nil => rfl
  | cons band rest =>
    cases band with
    | nil =>
      simp only [shapeRC, scale255Masked, List.length_cons, head?_range_map,
        List.getD_cons_zero]
      rfl
    | cons row rest2 =>
      simp only [shapeRC, scale255Masked, List.length_cons, head?_range_map,
        List.getD_cons_zero]
      simp [head?_range_succ]

/-- If `mask.any()` is false, every pixel is valid in every band. -/
theorem npAny3_false_allValid {m : List (List (List Bool))} (h : npAny3 m = false)
    (r c : Nat) : allValidAt m r c = true := by
  simp only [npAny3, List.any_eq_false, Bool.not_eq_true] at h
  simp only [allValidAt, List.all_eq_true]
  intro band hband
  have hb := h band hband
  cases hrow : band[r]? with
  | none => simp [List.getD, hrow]
  | some row =>
    have hr := hb row (List.getElem?_mem hrow)
    cases hx : row[c]? with
    | none => simp [List.getD, hrow, hx]
    | some x =>
      have hx2 := hr x (List.getElem?_mem hx)
      simp only [id, Bool.not_eq_true] at hx2
      simp [List.getD, hrow, hx, hx2]

/-- Pixel of the stacked output within bounds. -/
theorem dstackAlpha_pixel (rgb : List (List (List ℚ))) (a : List (List ℚ))
    {R C r c : Nat} (hr : r < R) (hc : c < C) :
    (((dstackAlpha rgb a R C).getD r []).getD c []) =
      ((rgb.getD r []).getD c []) ++ [(a.getD r []).getD c 0] := by
  unfold dstackAlpha
  rw [getD_range_map _ hr, getD_range_map _ hc]

/-- Alpha value at a pixel within bounds: 255 iff all bands are valid there. -/
theorem alphaPlane_value (mask : List (List (List Bool))) {R C r c : Nat}
    (hr : r < R) (hc : c < C) :
    ((alphaPlane mask R C).getD r []).getD c 0 =
      if allValidAt mask r c then 255 else 0 := by
  unfold alphaPlane
  by_cases h : npAny3 mask
  · rw [if_pos h, getD_range_map _ hr, getD_range_map _ hc]
  · rw [if_neg h, getD_range_map _ hr, getD_range_map _ hc,
      npAny3_false_allValid (by simpa using h) r c]
    simp

/-- Pixel of the transposed buffer within its shape: the list of band values
at that position. -/
theorem transposeBands_pixel (d : List (List (List ℚ))) {r c : Nat}
    (hr : r < (shapeRC d).1) (hc : c < (shapeRC d).2) :
    (((transposeBands d).getD r []).getD c []) =
      d.map (fun band => (band.getD r []).getD c 0) := by
  unfold transposeBands
  rw [getD_range_map _ hr, getD_range_map _ hc]

/-- Row count of the stacked output. -/
theorem dstackAlpha_length (rgb : List (List (List ℚ))) (a : List (List ℚ))
    (R C : Nat) : (dstackAlpha rgb a R C).length = R := by
  simp [dstackAlpha]

/-- Column count of a stacked output row within bounds. -/
theorem dstackAlpha_row_length (rgb : List (List (List ℚ))) (a : List (List ℚ))
    {R C r : Nat} (hr : r < R) : ((dstackAlpha rgb a R C).getD r []).length = C := by
  unfold dstackAlpha
  rw [getD_range_map _ hr]
  simp

/-- Row count of the transposed buffer. -/
theorem transposeBands_length (d : List (List (List ℚ))) :
    (transposeBands d).length = (shapeRC d).1 := by
  simp [transposeBands]

/-- Column count of a transposed row within bounds. -/
theorem transposeBands_row_length (d : List (List (List ℚ))) {r : Nat}
    (hr : r < (shapeRC d).1) : ((transposeBands d).getD r []).length = (shapeRC d).2 := by
  unfold transposeBands
  rw [getD_range_map _ hr]
  simp

/-- `getD` at the length of the left part of an append with a singleton. -/
theorem getD_append_singleton {α : Type} (l : List α) (x d : α) :
    (l ++ [x]).getD l.length d = x := by
  simp [List.getD, List.getElem?_append_right, Nat.le_refl]

/-- Buffer values after the float32 in-place scaling step of
`Image.transform` (the unscaled buffer for other dtypes). -/
def scaledData (pc : ImagePC) : List (List (List ℚ)) :=
  if pc.pixels.dtype = DType.float32 then scale255Masked pc.pixels.data pc.pixels.mask
  else pc.pixels.data

/-- Scaling step preserves the row/column shape. -/
theorem shapeRC_scaledData (pc : ImagePC) :
    shapeRC (scaledData pc) = shapeRC pc.pixels.data := by
  unfold scaledData
  split
  · exact shapeRC_scale255 _ _
  · rfl

/-- Scaling step preserves the band count. -/
theorem length_scaledData (pc : ImagePC) :
    (scaledData pc).length = pc.pixels.data.length := by
  unfold scaledData
  split
  · exact length_scale255 _ _
  · rfl

/-- Characterisation of the `Image.transform` result: the band-count guard is
dead, so the result is always the `"RGBA"` payload of the 4-band branch or of
the alpha-synthesising branch. -/
theorem transform_result_char (pc : ImagePC) :
    (Image.transform pc).result =
      if pc.pixels.data.length = 4 then
        some (transposeBands (map3 astype_uint8 (scaledData pc)), pc.bounds, "RGBA")
      else
        some (dstackAlpha (transposeBands (map3 astype_uint8 (scaledData pc)))
                (alphaPlane pc.pixels.mask (shapeRC (scaledData pc)).1
                  (shapeRC (scaledData pc)).2)
                (shapeRC (scaledData pc)).1 (shapeRC (scaledData pc)).2,
              pc.bounds, "RGBA") := by
  have hguard : ¬(3 > pc.pixels.data.length ∧ pc.pixels.data.length > 4) := by omega
  by_cases hd : pc.pixels.dtype = DType.float32 <;>
    by_cases hc : pc.pixels.data.length = 4 <;>
      simp [Image.transform, scaledData, hguard, hd, hc]

/-- Claim C10: on every 3- or 4-band input, `Image.transform` returns the
format tag `"RGBA"` (never `"RGB"`) with a pixel-interleaved buffer of
exactly 4 bands per pixel; for a 3-band input the synthesised alpha entry of
each pixel is 255 where all three bands are valid and 0 where any band is
masked (the no-masked-pixels case produces the constant-255 plane, which
agrees with that formula). -/
theorem image_transform_rgba (pc : ImagePC)
    (hcount : pc.pixels.data.length = 3 ∨ pc.pixels.data.length = 4) :
    ∃ out, (Image.transform pc).result = some (out, pc.bounds, "RGBA") ∧
      out.length = (shapeRC pc.pixels.data).1 ∧
      (∀ r, r < (shapeRC pc.pixels.data).1 →
        (out.getD r []).length = (shapeRC pc.pixels.data).2) ∧
      (∀ r, r < (shapeRC pc.pixels.data).1 → ∀ c, c < (shapeRC pc.pixels.data).2 →
        ((out.getD r []).getD c []).length = 4) ∧
      (pc.pixels.data.length = 3 →
        ∀ r, r < (shapeRC pc.pixels.data).1 → ∀ c, c < (shapeRC pc.pixels.data).2 →
          ((out.getD r []).getD c []).getD 3 0 =
            if allValidAt pc.pixels.mask r c then 255 else 0) := by
  have hshape := shapeRC_scaledData pc
  have hlen := length_scaledData pc
  have hshape3 := shapeRC_map3 astype_uint8 (scaledData pc)
  have hlen3 := length_map3 astype_uint8 (scaledData pc)
  rw [← hshape]
  rcases hcount with h3 | h4
  · have hne4 : ¬(pc.pixels.data.length = 4) := by omega
    refine ⟨_, by rw [transform_result_char pc, if_neg hne4], ?_, ?_, ?_, ?_⟩
    · exact dstackAlpha_length _ _ _ _
    · intro r hr
      exact dstackAlpha_row_length _ _ hr
    · intro r hr c hc
      rw [dstackAlpha_pixel _ _ hr hc]
      have hr2 : r < (shapeRC (map3 astype_uint8 (scaledData pc))).1 := by
        rw [hshape3]; exact hr
      have hc2 : c < (shapeRC (map3 astype_uint8 (scaledData pc))).2 := by
        rw [hshape3]; exact hc
      rw [transposeBands_pixel _ hr2 hc2]
      simp [hlen3, hlen, h3]
    · intro _ r hr c hc
      rw [dstackAlpha_pixel _ _ hr hc]
      have hr2 : r < (shapeRC (map3 astype_uint8 (scaledData pc))).1 := by
        rw [hshape3]; exact hr
      have hc2 : c < (shapeRC (map3 astype_uint8 (scaledData pc))).2 := by
        rw [hshape3]; exact hc
      rw [transposeBands_pixel _ hr2 hc2]
      have hpix : ((map3 astype_uint8 (scaledData pc)).map
          (fun band => (band.getD r []).getD c 0)).length = 3 := by
        simp [hlen3, hlen, h3]
      rw [show (3 : Nat) = ((map3 astype_uint8 (scaledData pc)).map
          (fun band => (band.getD r []).getD c 0)).length from hpix.symm]
      rw [getD_append_singleton]
      exact alphaPlane_value _ hr hc
  · refine ⟨_, by rw [transform_result_char pc, if_pos h4], ?_, ?_, ?_, ?_⟩
    · rw [transposeBands_length, hshape3]
    · intro r hr
      have hr2 : r < (shapeRC (map3 astype_uint8 (scaledData pc))).1 := by
        rw [hshape3]; exact hr
      rw [transposeBands_row_length _ hr2, hshape3]
    · intro r hr c hc
      have hr2 : r < (shapeRC (map3 astype_uint8 (scaledData pc))).1 := by
        rw [hshape3]; exact hr
      have hc2 : c < (shapeRC (map3 astype_uint8 (scaledData pc))).2 := by
        rw [hshape3]; exact hc
      rw [transposeBands_pixel _ hr2 hc2]
      simp [hlen3, hlen, h4]
    · intro h3
      omega

/-- Three-band 1×1 input with the first band masked at its only pixel. -/
def imgThreeBand : ImagePC :=
  ⟨⟨[[[10]], [[20]], [[30]]], [[[true]], [[false]], [[false]]], .uint8⟩,
   ⟨(0, 0, 1, 1), "EPSG:3857"⟩⟩

/-- Witness for `image_transform_rgba` at the concrete 3-band input. -/
theorem image_transform_rgba_witness :
    imgThreeBand.pixels.data.length = 3 ∧
    (∃ out, (Image.transform imgThreeBand).result =
        some (out, imgThreeBand.bounds, "RGBA") ∧
      out.length = (shapeRC imgThreeBand.pixels.data).1 ∧
      (∀ r, r < (shapeRC imgThreeBand.pixels.data).1 →
        (out.getD r []).length = (shapeRC imgThreeBand.pixels.data).2) ∧
      (∀ r, r < (shapeRC imgThreeBand.pixels.data).1 →
        ∀ c, c < (shapeRC imgThreeBand.pixels.data).2 →
          ((out.getD r []).getD c []).length = 4) ∧
      (imgThreeBand.pixels.data.length = 3 →
        ∀ r, r < (shapeRC imgThreeBand.pixels.data).1 →
          ∀ c, c < (shapeRC imgThreeBand.pixels.data).2 →
            ((out.getD r []).getD c []).getD 3 0 =
              if allValidAt imgThreeBand.pixels.mask r c then 255 else 0)) :=
  ⟨rfl, image_transform_rgba imgThreeBand (Or.inl rfl)⟩

/-- Failure mode of the generic-case planner when the retry loop exhausts
itself: `dst_transform` is still `None` after the loop, so the later
`dst_transform.a` access (line 279 of `marblecutter/__init__.py`) raises
`AttributeError` and `read_window` propagates the failure. -/
inductive PlanErr
  | noneTransform
deriving DecidableEq

/-- Scale factor used by the retry loop at a given attempt count: initially 1
(`scale_factor = 1`), then `scale_factor = 2 * attempts` after each memory
failure. -/
def sfOf (attempts : Nat) : Nat :=
  if attempts = 0 then 1 else 2 * attempts

/-- Successful output of the retry loop: the scaled-back transform and
destination dimensions, together with the scale factor that was in effect. -/
structure PlanOk where
  t : AffineQ
  dstWidth : ℚ
  dstHeight : ℚ
  sf : Nat
deriving DecidableEq

/-- The scale-factor sequence is strictly increasing. -/
theorem sfOf_lt_succ (a : Nat) : sfOf a < sfOf (a + 1) := by
  unfold sfOf
  split <;> split <;> omega

/-- The scale factor is always positive. -/
theorem sfOf_pos (a : Nat) : 0 < sfOf a := by
  unfold sfOf
  split <;> omega

/-- Retry loop of the generic case of `read_window` (lines 217-240).  The
external `warp.calculate_default_transform` is the parameter `calcFn` (taking
the resolution hint and the scaled source dimensions; `none` models
`MemoryError`/`CPLE_OutOfMemoryError`).  While the transform is still `None`
and both scaled dimensions `src.width // scale_factor`,
`src.height // scale_factor` are positive, the calculator is invoked; on
success the transform is scaled back by `~Affine.scale(scale_factor)` and the
dimensions by `scale_factor`; on memory failure the attempt count is bumped
and the scale factor becomes `2 * attempts`. -/
def planLoop (calcFn : Option (ℚ × ℚ) → Nat → Nat → Option (AffineQ × Nat × Nat))
    (hint : Option (ℚ × ℚ)) (w h : Nat) (attempts : Nat) : Option PlanOk :=
  if _hguard : 0 < w / sfOf attempts ∧ 0 < h / sfOf attempts then
    match calcFn hint (w / sfOf attempts) (h / sfOf attempts) with
    | some (t, dw, dh) =>
        some ⟨⟨t.a / sfOf attempts, t.b / sfOf attempts, t.c,
               t.d / sfOf attempts, t.e / sfOf attempts, t.f⟩,
              ((sfOf attempts * dw : Nat) : ℚ), ((sfOf attempts * dh : Nat) : ℚ),
              sfOf attempts⟩
    | none => planLoop calcFn hint w h (attempts + 1)
  else none
termination_by w + 2 - sfOf attempts
decreasing_by
  have h1 : sfOf attempts ≤ w := by
    by_contra hcon
    have : w / sfOf attempts = 0 := Nat.div_eq_of_lt (by omega)
    omega
  have h2 := sfOf_lt_succ attempts
  omega

/-- Resolution hint passed to the transform calculator (lines 210-215): the
target resolution, supplied only when the target is finer than the source in
some axis (overzooming); `None` otherwise. -/
def resolutionHint (targetRes sourceRes : ℚ × ℚ) : Option (ℚ × ℚ) :=
  if targetRes.1 < sourceRes.1 ∨ targetRes.2 < sourceRes.2 then some targetRes
  else none

/-- Guard of the special-case branch (lines 169-176): the Recipe declares
`dem`, the target CRS is web Mercator, and the target resolution is coarser
than the source resolution in both axes. -/
def specialCaseGuard (recipes : Recipes) (targetCrs : String)
    (targetRes sourceRes : ℚ × ℚ) : Bool :=
  recipes.dem && (targetCrs == "EPSG:3857") &&
    (decide (targetRes.1 > sourceRes.1) && decide (targetRes.2 > sourceRes.2))

/-- Special-case plan (lines 180-200): `zoom = min(22, rawZoom)` where
`rawZoom` is `get_zoom(max(source_resolution), op=math.ceil)` (the float
logarithm is abstracted as an integer parameter);
`dst_width = dst_height = (2 ** zoom) * 256`; per-axis resolution is the
extent span over the destination dimension; the transform is north-up,
anchored at the extent's top-left corner. -/
def demPlan (rawZoom : ℤ) (extent : ℚ × ℚ × ℚ × ℚ) : AffineQ × ℚ × ℚ :=
  let zoom := min 22 rawZoom
  let dst : ℚ := (2 : ℚ) ^ zoom * 256
  let (w0, s0, e0, n0) := extent
  let res1 := (e0 - w0) / dst
  let res2 := (n0 - s0) / dst
  (⟨res1, 0, w0, 0, -res2, n0⟩, dst, dst)

/-- Transform-planning phase of `read_window` (lines 169-240 plus the later
`dst_transform.a` access): the special-case branch when its guard holds,
otherwise the retry loop; a loop that ends with no transform leads to the
`AttributeError` on `dst_transform.a`, modelled as `PlanErr.noneTransform`. -/
def read_window_plan (recipes : Recipes) (targetCrs : String)
    (sourceRes targetRes : ℚ × ℚ) (rawZoom : ℤ) (extent : ℚ × ℚ × ℚ × ℚ)
    (calcFn : Option (ℚ × ℚ) → Nat → Nat → Option (AffineQ × Nat × Nat))
    (w h : Nat) : Except PlanErr (AffineQ × ℚ × ℚ) :=
  if specialCaseGuard recipes targetCrs targetRes sourceRes then
    Except.ok (demPlan rawZoom extent)
  else
    match planLoop calcFn (resolutionHint targetRes sourceRes) w h 0 with
    | some r => Except.ok (r.t, r.dstWidth, r.dstHeight)
    | none => Except.error PlanErr.noneTransform

/-- If the calculator always signals memory exhaustion, the loop returns no
transform (for every bound on the remaining measure). -/
theorem planLoop_none_of_fail
    (calcFn : Option (ℚ × ℚ) → Nat → Nat → Option (AffineQ × Nat × Nat))
    (hint : Option (ℚ × ℚ)) (w h : Nat)
    (hfail : ∀ hint2 w0 h0, calcFn hint2 w0 h0 = none) :
    ∀ (k a : Nat), w + 2 - sfOf a ≤ k → planLoop calcFn hint w h a = none := by
  intro k
  induction k with
  | zero =>
    intro a hk
    rw [planLoop]
    have hsf := sfOf_pos a
    have : w / sfOf a = 0 := Nat.div_eq_of_lt (by omega)
    rw [dif_neg (by omega)]
  | succ k ih =>
    intro a hk
    rw [planLoop]
    by_cases hg : 0 < w / sfOf a ∧ 0 < h / sfOf a
    · rw [dif_pos hg, hfail]
      apply ih
      have h1 : sfOf a ≤ w := by
        by_contra hcon
        have : w / sfOf a = 0 := Nat.div_eq_of_lt (by omega)
        omega
      have h2 := sfOf_lt_succ a
      omega
    · rw [dif_neg hg]

/-- A successful loop result always comes from a calculator invocation at
positive scaled dimensions. -/
theorem planLoop_pos_dims
    (calcFn : Option (ℚ × ℚ) → Nat → Nat → Option (AffineQ × Nat × Nat))
    (hint : Option (ℚ × ℚ)) (w h : Nat) :
    ∀ (k a : Nat) (r : PlanOk), w + 2 - sfOf a ≤ k →
      planLoop calcFn hint w h a = some r → 0 < w / r.sf ∧ 0 < h / r.sf := by
  intro k
  induction k with
  | zero =>
    intro a r hk hsome
    rw [planLoop] at hsome
    have hsf := sfOf_pos a
    have : w / sfOf a = 0 := Nat.div_eq_of_lt (by omega)
    rw [dif_neg (by omega)] at hsome
    exact absurd hsome (by simp)
  | succ k ih =>
    intro a r hk hsome
    rw [planLoop] at hsome
    by_cases hg : 0 < w / sfOf a ∧ 0 < h / sfOf a
    · rw [dif_pos hg] at hsome
      cases hcalc : calcFn hint (w / sfOf a) (h / sfOf a) with
      | some v =>
        rw [hcalc] at hsome
        obtain ⟨t, dw, dh⟩ := v
        simp only [Option.some.injEq] at hsome
        rw [← hsome]
        exact hg
      | none =>
        rw [hcalc] at hsome
        refine ih (a + 1) r ?_ hsome
        have h1 : sfOf a ≤ w := by
          by_contra hcon
          have : w / sfOf a = 0 := Nat.div_eq_of_lt (by omega)
          omega
        have h2 := sfOf_lt_succ a
        omega
    · rw [dif_neg hg] at hsome
      exact absurd hsome (by simp)

/-- Claim C5: whenever the special-case (DEM/web Mercator/downsampling)
branch is taken, the chosen zoom `min(22, rawZoom)` never exceeds 22 and the
destination width and height both equal `(2 ** zoom) * 256 = 256 · 2^zoom`
exactly. -/
theorem read_window_dem_special_case (recipes : Recipes) (targetCrs : String)
    (sourceRes targetRes : ℚ × ℚ) (rawZoom : ℤ) (extent : ℚ × ℚ × ℚ × ℚ)
    (calcFn : Option (ℚ × ℚ) → Nat → Nat → Option (AffineQ × Nat × Nat)) (w h : Nat)
    (hguard : specialCaseGuard recipes targetCrs targetRes sourceRes = true) :
    min 22 rawZoom ≤ 22 ∧
    ∃ t : AffineQ,
      read_window_plan recipes targetCrs sourceRes targetRes rawZoom extent calcFn w h =
        Except.ok (t, (2 : ℚ) ^ min (22 : ℤ) rawZoom * 256,
                   (2 : ℚ) ^ min (22 : ℤ) rawZoom * 256) ∧
      (2 : ℚ) ^ min (22 : ℤ) rawZoom * 256 = 256 * (2 : ℚ) ^ min (22 : ℤ) rawZoom := by
  obtain ⟨w0, s0, e0, n0⟩ := extent
  refine ⟨min_le_left _ _, ?_⟩
  refine ⟨⟨(e0 - w0) / ((2 : ℚ) ^ min (22 : ℤ) rawZoom * 256), 0, w0, 0,
    -((n0 - s0) / ((2 : ℚ) ^ min (22 : ℤ) rawZoom * 256)), n0⟩, ?_, mul_comm _ _⟩
  unfold read_window_plan
  rw [if_pos hguard]
  rfl

/-- Witness for `read_window_dem_special_case`: DEM recipe, web Mercator
target, target resolution (3,3) coarser than source resolution (2,2), raw
zoom 30 (capped at 22). -/
theorem read_window_dem_special_case_witness :
    specialCaseGuard ⟨true, none, none⟩ "EPSG:3857" (3, 3) (2, 2) = true ∧
    (min 22 (30 : ℤ) ≤ 22 ∧
     ∃ t : AffineQ,
       read_window_plan ⟨true, none, none⟩ "EPSG:3857" (2, 2) (3, 3) 30 (0, 0, 1, 1)
           (fun _ _ _ => none) 10 10 =
         Except.ok (t, (2 : ℚ) ^ min (22 : ℤ) 30 * 256,
                    (2 : ℚ) ^ min (22 : ℤ) 30 * 256) ∧
       (2 : ℚ) ^ min (22 : ℤ) 30 * 256 = 256 * (2 : ℚ) ^ min (22 : ℤ) 30) := by
  have hg : specialCaseGuard ⟨true, none, none⟩ "EPSG:3857" (3, 3) (2, 2) = true := by
    norm_num [specialCaseGuard]
  exact ⟨hg, read_window_dem_special_case ⟨true, none, none⟩ "EPSG:3857" (2, 2) (3, 3)
    30 (0, 0, 1, 1) (fun _ _ _ => none) 10 10 hg⟩

/-- Claim C4: if the transform calculator keeps signalling memory
exhaustion, the retry loop terminates with no transform once the scale
factor drives a scaled source dimension to zero, and the planner then
propagates a failure (the `dst_transform.a` access on `None`) instead of
returning; moreover, for every calculator, a returned transform always comes
from an invocation at strictly positive scaled dimensions. -/
theorem read_window_generic_abort (recipes : Recipes) (targetCrs : String)
    (sourceRes targetRes : ℚ × ℚ) (rawZoom : ℤ) (extent : ℚ × ℚ × ℚ × ℚ)
    (calcFn : Option (ℚ × ℚ) → Nat → Nat → Option (AffineQ × Nat × Nat)) (w h : Nat)
    (hfail : ∀ hint2 w0 h0, calcFn hint2 w0 h0 = none)
    (hguard : specialCaseGuard recipes targetCrs targetRes sourceRes = false) :
    planLoop calcFn (resolutionHint targetRes sourceRes) w h 0 = none ∧
    read_window_plan recipes targetCrs sourceRes targetRes rawZoom extent calcFn w h =
      Except.error PlanErr.noneTransform ∧
    (∀ (calcFn2 : Option (ℚ × ℚ) → Nat → Nat → Option (AffineQ × Nat × Nat))
       (hint2 : Option (ℚ × ℚ)) (w2 h2 a : Nat) (r : PlanOk),
       planLoop calcFn2 hint2 w2 h2 a = some r → 0 < w2 / r.sf ∧ 0 < h2 / r.sf) := by
  have hnone := planLoop_none_of_fail calcFn (resolutionHint targetRes sourceRes) w h
    hfail (w + 2) 0 (Nat.sub_le _ _)
  refine ⟨hnone, ?_, ?_⟩
  · unfold read_window_plan
    rw [if_neg (by simp [hguard]), hnone]
  · intro calcFn2 hint2 w2 h2 a r hsome
    exact planLoop_pos_dims calcFn2 hint2 w2 h2 (w2 + 2) a r (Nat.sub_le _ _) hsome

/-- Witness for `read_window_generic_abort`: an always-failing calculator on
a 3×2 source with no special-case guard. -/
theorem read_window_generic_abort_witness :
    (∀ (hint2 : Option (ℚ × ℚ)) (w0 h0 : Nat),
       (fun (_ : Option (ℚ × ℚ)) (_ _ : Nat) =>
         (none : Option (AffineQ × Nat × Nat))) hint2 w0 h0 = none) ∧
    specialCaseGuard ⟨false, none, none⟩ "EPSG:3857" (1, 1) (1, 1) = false ∧
    (planLoop (fun _ _ _ => none) (resolutionHint (1, 1) (1, 1)) 3 2 0 = none ∧
     read_window_plan ⟨false, none, none⟩ "EPSG:3857" (1, 1) (1, 1) 0 (0, 0, 1, 1)
         (fun _ _ _ => none) 3 2 =
       Except.error PlanErr.noneTransform ∧
     (∀ (calcFn2 : Option (ℚ × ℚ) → Nat → Nat → Option (AffineQ × Nat × Nat))
        (hint2 : Option (ℚ × ℚ)) (w2 h2 a : Nat) (r : PlanOk),
        planLoop calcFn2 hint2 w2 h2 a = some r → 0 < w2 / r.sf ∧ 0 < h2 / r.sf)) :=
  ⟨fun _ _ _ => rfl, rfl,
   read_window_generic_abort ⟨false, none, none⟩ "EPSG:3857" (1, 1) (1, 1) 0
     (0, 0, 1, 1) (fun _ _ _ => none) 3 2 (fun _ _ _ => rfl) rfl⟩

/-- `get_resolution(bounds, dims)` from `marblecutter/__init__.py`
(lines 115-119): absolute affine pixel sizes. -/
def get_resolution (b : Bounds) (dims : Nat × Nat) : ℚ × ℚ :=
  let (height, width) := dims
  let t := from_bounds b.bounds width height
  (|t.a|, |t.e|)

/-- `bounds.crs.is_geographic` for the CRS identifiers occurring in this
embedding (the geographic degree CRS is EPSG:4326). -/
def isGeographic (crs : String) : Bool :=
  crs == "EPSG:4326"

/-- `get_resolution_in_meters(bounds, dims)` (lines 122-137): for a
geographic CRS, great-circle distances (the external `haversine`, in km, is
the parameter `hav`) between the edge midpoints, scaled to meters and
divided by the pixel counts; otherwise the affine resolution. -/
def get_resolution_in_meters (hav : (ℚ × ℚ) → (ℚ × ℚ) → ℚ) (b : Bounds)
    (dims : Nat × Nat) : ℚ × ℚ :=
  if isGeographic b.crs then
    let (w, s, e, n) := b.bounds
    let (height, width) := dims
    (hav (w, (s + n) / 2) (e, (s + n) / 2) * 1000 / (width : ℚ),
     hav ((w + e) / 2, n) ((w + e) / 2, s) * 1000 / (height : ℚ))
  else get_resolution b dims

/-- Typed failures of `render`: the bare
`Exception("Either sources or a catalog must be provided.")` (the spec's
`ConfigurationError`) and `NoDataAvailable`. -/
inductive RenderError
  | configurationError
  | noDataAvailable
deriving DecidableEq

/-- Composited pixel collection as consumed by the rest of `render`: the
data may be absent (`pixels.data is None`). -/
structure PC0 where
  data : Option (List ℚ)
  bounds : Bounds

/-- Result of a transformation's `expand`: possibly enlarged bounds/shape and
the margin offsets to crop later. -/
structure ExpandResult where
  bounds : Bounds
  shape : Nat × Nat
  offsets : Nat × Nat × Nat × Nat

/-- External Transformation collaborator (spec §6): `expand`, `transform`
(returning the buffer and a format tag) and `postprocess`. -/
structure Transformation where
  expand : Bounds → Nat × Nat → ExpandResult
  transform : PC0 → PC0 × String
  postprocess : PC0 → String → (Nat × Nat × Nat × Nat) → PC0

/-- External Compositor collaborator: the provenance list and the composited
pixels. -/
structure CompositeResult where
  sourcesUsed : List (String × String)
  pixels : PC0

/-- `render(...)` from `marblecutter/__init__.py` (lines 316-393), embedded
over opaque collaborators (catalog, compositor, transformation, formatter,
haversine).  Sources are opaque handles (`Nat`).  The returned triple is the
ordered list of timed stage labels, the content type, and the formatted
payload; the response-header string assembly (which embeds wall-clock
durations) is not modelled.  Control flow:

1. fail with the configuration error if neither sources nor catalog is given;
2. expand via the transformation when present;
3. query the catalog (a "Get Sources" stat) only when no source list was
   given;
4. fail with `NoDataAvailable` on an empty source list;
5. composite, fail with `NoDataAvailable` when the result has no data;
6. transform/postprocess when a transformation is present (format tag "raw"
   otherwise), then format. -/
def render (bounds : Bounds) (shape : Nat × Nat) (target_crs : String)
    (format : PC0 → String → String × List Nat)
    (expand : Bool)
    (catalog : Option (Bounds → ℚ × ℚ → List Nat))
    (sources : Option (List Nat))
    (transformation : Option Transformation)
    (composite : List Nat → Bounds → Nat × Nat → String → Bool → CompositeResult)
    (hav : (ℚ × ℚ) → (ℚ × ℚ) → ℚ) :
    Except RenderError (List String × String × List Nat) :=
  let resolution_m := get_resolution_in_meters hav bounds shape
  if sources.isNone && catalog.isNone then Except.error RenderError.configurationError
  else
    let er : ExpandResult := match transformation with
      | some t => t.expand bounds shape
      | none => ⟨bounds, shape, (0, 0, 0, 0)⟩
    let sourcesAndStats : List Nat × List String :=
      match sources, catalog with
      | none, some c => (c er.bounds resolution_m, ["Get Sources"])
      | some s, _ => (s, [])
      | none, none => ([], [])
    if sourcesAndStats.1.length = 0 then Except.error RenderError.noDataAvailable
    else
      let cr := composite sourcesAndStats.1 er.bounds er.shape target_crs expand
      let stats2 := sourcesAndStats.2 ++ ["Composite"]
      match cr.pixels.data with
      | none => Except.error RenderError.noDataAvailable
      | some _ =>
        match transformation with
        | some t =>
          let tr := t.transform cr.pixels
          let p2 := t.postprocess tr.1 tr.2 er.offsets
          let fo := format p2 tr.2
          Except.ok (stats2 ++ ["Transform", "Post-process", "Format"], fo.1, fo.2)
        | none =>
          let fo := format cr.pixels "raw"
          Except.ok (stats2 ++ ["Format"], fo.1, fo.2)

/-- Claim C6: calling `render` with neither a source list nor a catalog
fails with the configuration error, and calling it with a source sequence
that resolves to an empty list (with or without a catalog configured) fails
with `NoDataAvailable`; the result holds for every compositor, formatter and
transformation, which in particular means no compositing, transforming or
formatting influences (or is needed for) the outcome. -/
theorem render_preconditions (bounds : Bounds) (shape : Nat × Nat)
    (target_crs : String) (format : PC0 → String → String × List Nat)
    (expand : Bool) (catalog : Bounds → ℚ × ℚ → List Nat)
    (transformation : Option Transformation)
    (composite : List Nat → Bounds → Nat × Nat → String → Bool → CompositeResult)
    (hav : (ℚ × ℚ) → (ℚ × ℚ) → ℚ) :
    render bounds shape target_crs format expand none none transformation
      composite hav = Except.error RenderError.configurationError ∧
    render bounds shape target_crs format expand (some catalog) (some [])
      transformation composite hav = Except.error RenderError.noDataAvailable ∧
    render bounds shape target_crs format expand none (some []) transformation
      composite hav = Except.error RenderError.noDataAvailable := by
  refine ⟨rfl, ?_, ?_⟩ <;> cases transformation <;> rfl
